import Mathlib

/-!
Verification development for the job-agent repository.

The repository has two entry points built on the same plan-driven browser
automation engine:
  * `adk-backend/agent.py` — a paginated SimplyHired scraper
    (`find_jobs_on_simplyhired`, `parse_html_with_beautifulsoup`);
  * `intern-agent/agent.py` — a GitHub internship-table scraper
    (`parse_internship_table`) and a plan-based autofill loop
    (`apply_for_internship`, `get_page_plan_from_gemini`).

This file shallowly embeds those functions.  Pure parsing code is embedded
as Lean functions over a structural model of the DOM fragments the Python
code actually consumes (BeautifulSoup lookups become record fields holding
`Option`s).  The stateful browser loops are embedded as functions over an
explicit environment that fixes the outcome of every browser side effect
(navigation, click, fill, upload), exactly mirroring the Python control
flow (`try`/`except` arms become case splits on the recorded outcome).
-/

namespace JobAgent

/-! ### Models of the Python string primitives used by the source

The source uses `str.strip`, `str.replace`, `str.startswith`, `in` (single
character containment), `str.join` and `str(...)` of an optional value.
They are modelled directly over the character list of a `String` so that
every one of them evaluates by kernel reduction. -/

/-- Python `s.strip()`: drop whitespace from both ends. -/
def pyStrip (s : String) : String :=
  ⟨((s.data.dropWhile Char.isWhitespace).reverse.dropWhile Char.isWhitespace).reverse⟩

/-- One pass of Python `s.replace(pat, rep)` over the character list; the
fuel is the length of the subject, which bounds the number of steps since
every step consumes at least one character of a nonempty subject. -/
def replaceFuel (pat rep : List Char) : Nat → List Char → List Char
  | _, [] => []
  | 0, s => s
  | fuel + 1, c :: cs =>
    if pat.isPrefixOf (c :: cs) then
      rep ++ replaceFuel pat rep fuel (List.drop (pat.length - 1) cs)
    else
      c :: replaceFuel pat rep fuel cs

/-- Python `s.replace(pat, rep)` (non-overlapping, left to right). -/
def pyReplace (s pat rep : String) : String :=
  ⟨replaceFuel pat.data rep.data s.data.length s.data⟩

/-- Python `s.startswith(pre)`. -/
def pyStartsWith (s pre : String) : Bool :=
  pre.data.isPrefixOf s.data

/-- Python `c in s` for a single character `c`. -/
def pyContainsChar (s : String) (c : Char) : Bool :=
  s.data.contains c

/-- Python `sep.join(parts)`. -/
def pyJoin (sep : String) : List String → String
  | [] => ""
  | p :: ps => ps.foldl (fun acc q => acc ++ sep ++ q) p

/-- Python `str(value)` where `value` is `dict.get`'s result: a string, or
`None` when the key is absent (or bound to `None`), which prints as the
literal string `"None"`. -/
def pyStrOpt : Option String → String
  | some s => s
  | none => "None"

/-! ### Listing-variant Record Extractor (`parse_html_with_beautifulsoup`)

`adk-backend/agent.py` lines 29–62.  The function consumes, per job card:
the `<a>` inside the title `<h2>` (text and optional `href`), an optional
company `<span>` and an optional location `<span>`.  `titleLink = none`
models both a missing `<h2>` and an `<h2>` without an `<a>`, the two cases
the Python guards collapse into `title_link = None`. -/

/-- The `<a>` tag found inside the title element: its text and `href`. -/
structure TitleLink where
  text : String
  href : Option String
  deriving DecidableEq, Repr

/-- One `div[data-testid=searchSerpJob]` job card, at the granularity the
extractor reads it. -/
structure JobCard where
  titleLink : Option TitleLink
  company : Option String
  location : Option String
  deriving DecidableEq, Repr

/-- One extracted listing record (the dict appended to `jobs`). -/
structure Job where
  title : String
  company : String
  location : String
  url : String
  page_scraped : Nat
  deriving DecidableEq, Repr

/-- `title = title_link.text.strip() if title_link else "N/A"`. -/
def cardTitle (c : JobCard) : String :=
  match c.titleLink with
  | some l => pyStrip l.text
  | none => "N/A"

/-- The card's url: the raw `href` (or `"N/A"`), then the normalization
`if url != "N/A" and not url.startswith('http'): url = f"https://www.simplyhired.com{url}"`. -/
def cardUrl (c : JobCard) : String :=
  match c.titleLink with
  | some l =>
    match l.href with
    | some h =>
      if h ≠ "N/A" ∧ pyStartsWith h "http" = false then "https://www.simplyhired.com" ++ h
      else h
    | none => "N/A"
  | none => "N/A"

/-- The record the loop body would append for a card (fields degrade to
`"N/A"` when their element is missing). -/
def recordOfCard (page_number : Nat) (c : JobCard) : Job :=
  { title := cardTitle c
    company := (c.company.map pyStrip).getD "N/A"
    location := (c.location.map pyStrip).getD "N/A"
    url := cardUrl c
    page_scraped := page_number }

/-- The loop's append guard: `if title != "N/A"`. -/
def cardEmits (c : JobCard) : Bool :=
  cardTitle c ≠ "N/A"

/-- `parse_html_with_beautifulsoup(html_content, page_number)`: iterate the
job cards in order, appending a record exactly when the computed title is
not the sentinel. -/
def parse_html_with_beautifulsoup : List JobCard → Nat → List Job
  | [], _ => []
  | c :: rest, page_number =>
    if cardEmits c then
      recordOfCard page_number c :: parse_html_with_beautifulsoup rest page_number
    else
      parse_html_with_beautifulsoup rest page_number

/-! ### Internship-variant Record Extractor (`parse_internship_table`)

`intern-agent/agent.py` lines 26–88.  Per `<td>` cell the code reads its
stripped text, the first `<a>` tag (which may or may not carry an `href`),
and its `stripped_strings` (used only for the location cell). -/

/-- One `<td>` cell.  `link = none`: no `<a>` tag; `link = some none`: an
`<a>` tag without an `href` attribute; `link = some (some h)`: an `<a>`
with `href = h`. -/
structure Cell where
  text : String
  link : Option (Option String)
  parts : List String
  deriving DecidableEq, Repr

/-- One `<tr>` row of the internship table. -/
structure Row where
  cells : List Cell
  deriving DecidableEq, Repr

/-- One internship record (the dict appended to `internships`). -/
structure Internship where
  company : String
  role : String
  location : String
  date_posted : String
  url : String
  deriving DecidableEq, Repr

/-- The document structure the parser walks: the `markdown-body`
`<article>`, its first `<table>`, and that table's `<tbody>` rows; each
layer may be absent, in which case the parser returns `[]`. -/
structure ITable where
  tbody : Option (List Row)
  deriving DecidableEq, Repr

structure IArticle where
  table : Option ITable
  deriving DecidableEq, Repr

structure IDoc where
  markdownBody : Option IArticle
  deriving DecidableEq, Repr

/-- The application cell's url resolution: `url = href` when an `<a>` with
an `href` exists; otherwise, skip the row when `'🔒' in text` (returning
`none` models the `continue`); otherwise `url = text.strip()`. -/
def cellUrl (c3 : Cell) : Option String :=
  match c3.link with
  | some (some h) => some h
  | _ =>
    if pyContainsChar c3.text '🔒' then none
    else some (pyStrip c3.text)

/-- The loop body for one row, given the carried `last_company`: `none`
when the row is skipped (fewer than 4 cells, the 🔒 `continue`, or a url
that does not start with `http`), `some record` when it is appended. -/
def rowRecord (last_company : String) (r : Row) : Option Internship :=
  match r.cells with
  | c0 :: c1 :: c2 :: c3 :: rest =>
    let company0 := pyStrip c0.text
    let company := if company0 = "↳" then last_company else company0
    let role := pyStrip (pyReplace (pyReplace (pyStrip c1.text) "🛂" "") "🇺🇸" "")
    let location := pyJoin " | " (c2.parts.map pyStrip)
    match cellUrl c3 with
    | none => none
    | some url =>
      if pyStartsWith url "http" then
        some { company := company
               role := role
               location := location
               date_posted := (rest.head?.map fun c => pyStrip c.text).getD "N/A"
               url := url }
      else none
  | _ => none

/-- The `last_company` update performed by one row: a row with at least 4
cells whose first cell is not the marker `↳` overwrites the carried
company with its own; every other row leaves it unchanged. -/
def rowLast (last_company : String) (r : Row) : String :=
  match r.cells with
  | c0 :: _ :: _ :: _ :: _ =>
    if pyStrip c0.text = "↳" then last_company else pyStrip c0.text
  | _ => last_company

/-- The row loop of `parse_internship_table`, threading `last_company`. -/
def parseRows : List Row → String → List Internship
  | [], _ => []
  | r :: rs, last_company =>
    match rowRecord last_company r with
    | some rec => rec :: parseRows rs (rowLast last_company r)
    | none => parseRows rs (rowLast last_company r)

/-- `parse_internship_table(html_content)`: missing article, table or
tbody yield `[]`; otherwise the rows are folded with `last_company`
initialized to `""`. -/
def parse_internship_table (doc : IDoc) : List Internship :=
  match doc.markdownBody with
  | none => []
  | some article =>
    match article.table with
    | none => []
    | some table =>
      match table.tbody with
      | none => []
      | some rows => parseRows rows ""

/-- The rows of a document (empty when any layer is missing). -/
def rowsOf (doc : IDoc) : List Row :=
  match doc.markdownBody with
  | none => []
  | some article =>
    match article.table with
    | none => []
    | some table => table.tbody.getD []

/-- A document wrapping the given rows in a present article, table and
tbody. -/
def mkDoc (rows : List Row) : IDoc :=
  ⟨some ⟨some ⟨some rows⟩⟩⟩

/-- Whether a row is emitted: at least 4 cells, no 🔒 skip, and a resolved
url starting with `http`.  Emission does not depend on the carried
company. -/
def rowEmits (r : Row) : Bool :=
  match r.cells with
  | _ :: _ :: _ :: c3 :: _ =>
    match cellUrl c3 with
    | none => false
    | some url => pyStartsWith url "http"
  | _ => false

/-- The stripped text of a row's first cell (`""` when the row has no
cells). -/
def firstTrim (r : Row) : String :=
  (r.cells.head?.map fun c => pyStrip c.text).getD ""

/-- The `last_company` value after folding a list of rows. -/
def foldCompany (rows : List Row) (s : String) : String :=
  rows.foldl rowLast s

/-- Modelled from the spec's words, for comparison with the code: the
claim "a row whose first cell is a continuation marker inherits the
company name from the previous row", read as: the company of the most
recent preceding row (any row, regardless of cell count) whose first cell
is not the marker. -/
def specInheritedCompany (preceding : List Row) : String :=
  ((preceding.reverse.find? fun r =>
      match r.cells.head? with
      | some c => pyStrip c.text ≠ "↳"
      | none => false).map firstTrim).getD ""

/-- The code's inheritance source: the most recent preceding row that has
at least 4 cells and whose first cell is not the marker (rows with fewer
than 4 cells are skipped before the company state is touched). -/
def codeInheritedCompany (preceding : List Row) : String :=
  ((preceding.reverse.find? fun r =>
      decide (4 ≤ r.cells.length) && decide (firstTrim r ≠ "↳")).map firstTrim).getD ""

/-! ### Action Plan Executor (`apply_for_internship`, inner step loop)

`intern-agent/agent.py` lines 339–403.  A plan step is a dict with an
`"action"` tag and kind-specific fields; the executor walks the plan in
order against the live page.  Each browser side effect is given its
outcome by an environment: `ok navigated` means the Playwright call
completed (for `CLICK`, `navigated` records whether `expect_navigation`
saw a navigation before its 5 s timeout — a timeout raises
`PlaywrightTimeoutError`, which the code treats as a non-navigating
click); `raised` means the call threw some other exception. -/

/-- One plan step (the tagged action dicts of the Gemini plan contract).
`other` covers any unrecognized `"action"` value, including the `"FAIL"`
default: no branch matches it, so the step is a no-op. -/
inductive Action
  | fill (selector user_data_key : String)
  | upload (selector : String)
  | select (selector value_to_select : String)
  | customSelect (selector option_text : String)
  | answerQuestion (selector question_text : String)
  | click (selector : String)
  | other (name : String)
  deriving DecidableEq, Repr

/-- Outcome of one browser call, fixed by the environment. -/
inductive StepOutcome
  | ok (navigated : Bool)
  | raised
  deriving DecidableEq, Repr

/-- The environment driving one page's plan execution: the outcome of each
step's browser call, and the answer string `get_answer_from_gemini`
produces for each step (that helper catches its own failures and returns a
fallback string, so it always yields a string). -/
structure ExecEnv where
  outcome : Nat → StepOutcome
  answer : Nat → String

/-- The profile (`USER_DATA`): a read-only string-keyed mapping;
`lookup k = none` models both an absent key and a key bound to `None`. -/
def Profile : Type := String → Option String

/-- Observable side effects performed on the page. -/
inductive Effect
  | filled (selector value : String)
  | uploaded (selector : String) (path : Option String)
  | selected (selector value : String)
  | customSelected (selector option_text : String)
  | answered (selector answer : String)
  | clicked (selector : String)
  deriving DecidableEq, Repr

/-- How plan execution ended: `finished navigated` when the step loop ran
to completion or broke out on a navigating click, `fatal msg` when the
function returned the error dict `{"status": "error", "message": msg}`. -/
inductive ExecResult
  | finished (navigated : Bool)
  | fatal (msg : String)
  deriving DecidableEq, Repr

/-- What one step does: continue to the next step with some effects, stop
the plan with `navigated = true`, or abort the job with an error. -/
inductive StepRes
  | cont (effects : List Effect)
  | stopNav (effects : List Effect)
  | stopFatal (msg : String)
  deriving DecidableEq, Repr

/-- The body of the step loop for one step, mirroring the `if`/`elif`
chain (lines 345–403): `FILL`, `SELECT`, `CUSTOM_SELECT` and
`ANSWER_QUESTION` log and continue when their call raises; `UPLOAD`
returns the error dict when its call raises; `CLICK` stops the plan when
navigation is observed, continues on the navigation timeout, and returns
the error dict when the click itself raises. -/
def execStep (profile : Profile) (env : ExecEnv) (a : Action) (n : Nat) : StepRes :=
  match a with
  | .fill selector user_data_key =>
    match env.outcome n with
    | .ok _ => .cont [.filled selector (pyStrOpt (profile user_data_key))]
    | .raised => .cont []
  | .upload selector =>
    match env.outcome n with
    | .ok _ => .cont [.uploaded selector (profile "resume_path")]
    | .raised => .stopFatal ("Failed to upload resume to selector: " ++ selector)
  | .select selector value_to_select =>
    match env.outcome n with
    | .ok _ => .cont [.selected selector value_to_select]
    | .raised => .cont []
  | .customSelect selector option_text =>
    match env.outcome n with
    | .ok _ => .cont [.customSelected selector option_text]
    | .raised => .cont []
  | .answerQuestion selector _question_text =>
    match env.outcome n with
    | .ok _ => .cont [.answered selector (env.answer n)]
    | .raised => .cont []
  | .click selector =>
    match env.outcome n with
    | .ok true => .stopNav [.clicked selector]
    | .ok false => .cont [.clicked selector]
    | .raised => .stopFatal ("Failed to click selector: " ++ selector)
  | .other _ => .cont []

/-- Result of running one page's plan: how many steps were entered, the
effects performed, and how execution ended. -/
structure ExecOut where
  attempted : Nat
  effects : List Effect
  result : ExecResult
  deriving DecidableEq, Repr

/-- The step loop (`for step_num, step in enumerate(page_plan)`),
executing the plan from step index `n`. -/
def runPlan (profile : Profile) (env : ExecEnv) : List Action → Nat → ExecOut
  | [], _ => ⟨0, [], .finished false⟩
  | a :: rest, n =>
    match execStep profile env a n with
    | .cont effects =>
      let o := runPlan profile env rest (n + 1)
      ⟨o.attempted + 1, effects ++ o.effects, o.result⟩
    | .stopNav effects => ⟨1, effects, .finished true⟩
    | .stopFatal msg => ⟨1, [], .fatal msg⟩

/-! ### Planning Oracle guard (`get_page_plan_from_gemini`)

Lines 255–301.  The round trip is: `generate_content_async` (which may
raise before `response` is ever bound), the text cleanup, `json.loads`
(which may raise), then a log line evaluating
`len(plan_json.get('plan', []))` — which itself raises inside the `try`
when the parsed value is not a dict (`AttributeError` on `.get`) or when
its `"plan"` value has no `len()` (`TypeError`) — and finally
`return plan_json` with the parsed dict unchanged, whatever the `"plan"`
value's elements are.  Every exception raised after `response` is bound
is caught by the `except` arm, which returns the literal `{"plan": []}`;
but when the generation call itself raised, the arm's own
`getattr(response, 'text', 'N/A')` (line 300) raises `UnboundLocalError`
(`response` is unbound), which escapes to the caller instead of
degrading. -/

/-- One element of a parsed `"plan"` sequence: a dict, whose `.get`
calls succeed (`Action.other` covers unrecognized `"action"` tags), or a
non-dict value, on which the step loop's `step.get("action", "FAIL")`
(line 341) raises `AttributeError`.  `typeName` is the Python type name
appearing in that error's text. -/
inductive PlanItem
  | step (a : Action)
  | nonDict (typeName : String)
  deriving DecidableEq, Repr

/-- The `"plan"` value of a parsed dict: a sized sequence (list, str,
dict, tuple — the step loop iterates its elements, characters or keys)
or a value without `len()`, on which the log line raises `TypeError`
inside the `try`. -/
inductive PlanValue
  | items (xs : List PlanItem)
  | unsized
  deriving DecidableEq, Repr

/-- What `json.loads` produced: a dict (with or without a `"plan"` key)
or some other JSON value, on which `.get` raises `AttributeError` inside
the `try`. -/
inductive ParsedJson
  | dict (plan : Option PlanValue)
  | nonDict
  deriving DecidableEq, Repr

/-- What the oracle round trip did up to `json.loads`: the generation
call raised (`response` never bound), `json.loads` raised (`response`
bound), or a JSON value was parsed. -/
inductive GeminiPlanResponse
  | genFailure
  | jsonError
  | parsed (v : ParsedJson)
  deriving DecidableEq, Repr

/-- The dict the function returns, at the granularity the caller reads
it: the `"plan"` sequence's elements, when the key is present. -/
structure PlanDict where
  plan : Option (List PlanItem)
  deriving DecidableEq, Repr

/-- The message of the `UnboundLocalError` the `except` arm raises when
`response` was never bound (the exact text varies across Python
versions; this models the one the outer handler stringifies). -/
def unboundLocalMsg : String :=
  "cannot access local variable 'response' where it is not associated with a value"

/-- `str(e)` of the `AttributeError` raised by `step.get` on a non-dict
plan element of the given Python type. -/
def attributeErrorMsg (typeName : String) : String :=
  "'" ++ typeName ++ "' object has no attribute 'get'"

/-- `get_page_plan_from_gemini`: exceptions raised after `response` is
bound degrade to the literal `{"plan": []}`; a generation failure
escapes as the handler's own `UnboundLocalError`; a parsed dict whose
`"plan"` value is a sized sequence is returned unchanged. -/
def get_page_plan_from_gemini : GeminiPlanResponse → Except String PlanDict
  | .genFailure => .error unboundLocalMsg
  | .jsonError => .ok ⟨some []⟩
  | .parsed .nonDict => .ok ⟨some []⟩
  | .parsed (.dict none) => .ok ⟨none⟩
  | .parsed (.dict (some .unsized)) => .ok ⟨some []⟩
  | .parsed (.dict (some (.items xs))) => .ok ⟨some xs⟩

/-- The plan elements the loop extracts from a returned dict:
`page_plan_json.get("plan", [])`. -/
def planItems (d : PlanDict) : List PlanItem :=
  d.plan.getD []

/-- The extraction as seen across the oracle call: the plan elements, or
the exception the call let escape. -/
def extractedItems (r : GeminiPlanResponse) : Except String (List PlanItem) :=
  (get_page_plan_from_gemini r).map planItems

/-- The step loop over the raw plan elements (`for step_num, step in
enumerate(page_plan)`): a dict element behaves per `execStep`; a
non-dict element raises `AttributeError`, which only the outer handler
(line 417) catches, turning the attempt into the error status. -/
def runItems (profile : Profile) (env : ExecEnv) : List PlanItem → Nat → ExecOut
  | [], _ => ⟨0, [], .finished false⟩
  | .step a :: rest, n =>
    match execStep profile env a n with
    | .cont effects =>
      let o := runItems profile env rest (n + 1)
      ⟨o.attempted + 1, effects ++ o.effects, o.result⟩
    | .stopNav effects => ⟨1, effects, .finished true⟩
    | .stopFatal msg => ⟨1, [], .fatal msg⟩
  | .nonDict typeName :: _, _ => ⟨1, [], .fatal (attributeErrorMsg typeName)⟩

/-! ### Plan Acquisition Loop (`apply_for_internship`, outer page loop)

Lines 319–421.  Per iteration: request a plan for the current page — an
exception the plan request lets escape is caught only by the outer
handler (line 417), which returns the error status dict; an empty
(falsy) plan breaks out (success); otherwise execute the elements in
order; a fatal step (upload/click error dict, or an `AttributeError` on
a non-dict element reaching the same outer handler) ends the attempt
with the error status immediately; completion without navigation breaks
out (success); navigation re-enters the loop, bounded by
`max_pages_to_process = 10`. -/

/-- The per-attempt environment: each page iteration's oracle reply and
execution environment. -/
structure PageEnv where
  reply : Nat → GeminiPlanResponse
  exec : Nat → ExecEnv

/-- The returned status dict, reduced to its two shapes. -/
inductive LoopStatus
  | success (message : String)
  | error (message : String)
  deriving DecidableEq, Repr

/-- The observable summary of one attempt: how many plan requests were
made (one per loop iteration entered), how many plan steps were entered in
total, and the returned status. -/
structure LoopOut where
  planCalls : Nat
  actionsAttempted : Nat
  status : LoopStatus
  deriving DecidableEq, Repr

/-- The success message of the normal return path. -/
def autofillDoneMsg : String :=
  "Autofill process complete. Browser was open for review."

/-- The page loop with `fuel` iterations remaining, currently at iteration
`i`.  Exhausting the fuel falls through to the review pause and the
success return, exactly like breaking out. -/
def applyLoop (profile : Profile) (env : PageEnv) : Nat → Nat → LoopOut
  | 0, _ => ⟨0, 0, .success autofillDoneMsg⟩
  | fuel + 1, i =>
    match get_page_plan_from_gemini (env.reply i) with
    | .error e => ⟨1, 0, .error e⟩
    | .ok d =>
      let items := planItems d
      if items.isEmpty then ⟨1, 0, .success autofillDoneMsg⟩
      else
        let o := runItems profile (env.exec i) items 0
        match o.result with
        | .fatal msg => ⟨1, o.attempted, .error msg⟩
        | .finished true =>
          let rest := applyLoop profile env fuel (i + 1)
          ⟨rest.planCalls + 1, rest.actionsAttempted + o.attempted, rest.status⟩
        | .finished false => ⟨1, o.attempted, .success autofillDoneMsg⟩

/-- `apply_for_internship` from the first page on, after a successful
`goto`: the loop is bounded by `max_pages_to_process = 10`. -/
def apply_for_internship (profile : Profile) (env : PageEnv) : LoopOut :=
  applyLoop profile env 10 0

/-! ### Pagination Controller (`find_jobs_on_simplyhired`)

`adk-backend/agent.py` lines 64–191.  Per page: page 1 is loaded with
`page.goto` (whose `PlaywrightTimeoutError` or other exception escapes to
the outer handlers); page `k > 1` locates `paginationBlock{k}` — an absent
control, a click timeout, or any other exception inside the inner `try`
all `break` out of the loop gracefully.  After navigating, `page.content`
is fetched (its exceptions also escape to the outer handlers) and parsed
with `parse_html_with_beautifulsoup` (the parse call's own `try` only
logs).  The outer handlers save the accumulated jobs to the Google Sheet
when nonempty and return a single error dict carrying the count; the
normal exit saves when nonempty and returns the accumulated jobs. -/

/-- Outcome of the page-1 `page.goto`. -/
inductive GotoOutcome
  | ok
  | timeout (details : String)
  | err (details : String)
  deriving DecidableEq, Repr

/-- Outcome of locating and clicking the page-`k` pagination control
(everything inside the inner `try` of lines 111–127). -/
inductive ControlOutcome
  | found
  | absent
  | clickTimeout
  | clickErr (details : String)
  deriving DecidableEq, Repr

/-- Outcome of `page.content()` for one page. -/
inductive ContentOutcome
  | ok
  | timeout (details : String)
  | err (details : String)
  deriving DecidableEq, Repr

/-- The environment of one scraping run: the goto outcome, the pagination
control outcome for each page `k ≥ 2`, the content-fetch outcome for each
page, and the job cards the fetched markup contains. -/
structure PagEnv where
  goto1 : GotoOutcome
  control : Nat → ControlOutcome
  content : Nat → ContentOutcome
  cards : Nat → List JobCard

/-- What the tool call returned: the job list, or the single error dict
`[{"error": ..., "details": ..., "jobs_collected_before_...": n}]`, which
carries the partial-result count but not the records themselves. -/
inductive ScrapeResult
  | jobs (records : List Job)
  | errorReport (error details : String) (collected : Nat)
  deriving DecidableEq, Repr

/-- The run's observables: the returned value, and every list of jobs
passed to `save_jobs_to_google_sheet`. -/
structure ScrapeOut where
  result : ScrapeResult
  sheetSaves : List (List Job)
  deriving DecidableEq, Repr

/-- The `if all_extracted_jobs:` guard before each sheet save. -/
def saveIf (acc : List Job) : List (List Job) :=
  if acc.isEmpty then [] else [acc]

/-- The normal exit (loop finished or a graceful `break`): save when
nonempty, return the accumulated jobs. -/
def finishSuccess (acc : List Job) : ScrapeOut :=
  ⟨.jobs acc, saveIf acc⟩

/-- The outer `PlaywrightTimeoutError` handler (lines 151–160). -/
def finishTimeout (acc : List Job) (details : String) : ScrapeOut :=
  ⟨.errorReport "Playwright timeout" details acc.length, saveIf acc⟩

/-- The outer generic exception handler (lines 161–170). -/
def finishUnexpected (acc : List Job) (details : String) : ScrapeOut :=
  ⟨.errorReport "Unexpected error during scraping" details acc.length, saveIf acc⟩

/-- The page loop with `fuel` pages remaining, currently at page `k`,
having accumulated `acc`. -/
def pagLoop (env : PagEnv) : Nat → Nat → List Job → ScrapeOut
  | 0, _, acc => finishSuccess acc
  | fuel + 1, k, acc =>
    if k = 1 then
      match env.goto1 with
      | .timeout d => finishTimeout acc d
      | .err d => finishUnexpected acc d
      | .ok =>
        match env.content k with
        | .timeout d => finishTimeout acc d
        | .err d => finishUnexpected acc d
        | .ok => pagLoop env fuel (k + 1) (acc ++ parse_html_with_beautifulsoup (env.cards k) k)
    else
      match env.control k with
      | .absent => finishSuccess acc
      | .clickTimeout => finishSuccess acc
      | .clickErr _ => finishSuccess acc
      | .found =>
        match env.content k with
        | .timeout d => finishTimeout acc d
        | .err d => finishUnexpected acc d
        | .ok => pagLoop env fuel (k + 1) (acc ++ parse_html_with_beautifulsoup (env.cards k) k)

/-- `find_jobs_on_simplyhired(job_role, location, max_pages)`: pages
`1..max_pages` starting empty. -/
def find_jobs_on_simplyhired (env : PagEnv) (max_pages : Nat) : ScrapeOut :=
  pagLoop env max_pages 1 []

/-- The jobs of pages `j..j+d-1`, in page order. -/
def segJobs (env : PagEnv) : Nat → Nat → List Job
  | _, 0 => []
  | j, d + 1 => parse_html_with_beautifulsoup (env.cards j) j ++ segJobs env (j + 1) d

/-- The records a returned value actually contains: the error dict holds
two strings and a count, no records. -/
def recordsReturned : ScrapeResult → List Job
  | .jobs records => records
  | .errorReport _ _ _ => []

/-! ### Executor lemmas -/

/-- Unfolding equation for one step of `runPlan`. -/
theorem runPlan_cons (profile : Profile) (env : ExecEnv) (a : Action) (rest : List Action)
    (n : Nat) :
    runPlan profile env (a :: rest) n =
      (match execStep profile env a n with
      | .cont effects =>
        ⟨(runPlan profile env rest (n + 1)).attempted + 1,
         effects ++ (runPlan profile env rest (n + 1)).effects,
         (runPlan profile env rest (n + 1)).result⟩
      | .stopNav effects => ⟨1, effects, .finished true⟩
      | .stopFatal msg => ⟨1, [], .fatal msg⟩) := rfl

/-- Composition of plan execution: when a prefix runs to completion
without navigating and without a fatal error, executing the concatenation
runs the prefix and then the suffix (at the shifted step indices). -/
theorem runPlan_append (profile : Profile) (env : ExecEnv) (xs ys : List Action) (n : Nat)
    (hpre : (runPlan profile env xs n).result = .finished false) :
    runPlan profile env (xs ++ ys) n =
      ⟨xs.length + (runPlan profile env ys (n + xs.length)).attempted,
       (runPlan profile env xs n).effects ++ (runPlan profile env ys (n + xs.length)).effects,
       (runPlan profile env ys (n + xs.length)).result⟩ := by
  induction xs generalizing n with
  | nil =>
    simp [runPlan]
  | cons a xs ih =>
    have harith : n + 1 + xs.length = n + (xs.length + 1) := by omega
    rw [List.cons_append, runPlan_cons, runPlan_cons]
    cases h : execStep profile env a n with
    | cont effects =>
      have hpre' : (runPlan profile env xs (n + 1)).result = .finished false := by
        have h2 := hpre
        rw [runPlan_cons, h] at h2
        simpa using h2
      rw [ih (n + 1) hpre', harith]
      simp only [ExecOut.mk.injEq, List.length_cons, List.append_assoc, and_true, true_and]
      omega
    | stopNav effects =>
      rw [runPlan_cons, h] at hpre
      simp at hpre
    | stopFatal msg =>
      rw [runPlan_cons, h] at hpre
      simp at hpre

/-- Running a list of dict elements is exactly running the corresponding
action plan: the two loops agree step for step. -/
theorem runItems_map_step (profile : Profile) (env : ExecEnv) (xs : List Action) (n : Nat) :
    runItems profile env (xs.map PlanItem.step) n = runPlan profile env xs n := by
  induction xs generalizing n with
  | nil => rfl
  | cons a rest ih =>
    rw [List.map_cons, runPlan_cons]
    cases h : execStep profile env a n with
    | cont effects => simp only [runItems, h, ih]
    | stopNav effects => simp only [runItems, h]
    | stopFatal msg => simp only [runItems, h]

/-- Plan execution enters at most `fuel` loop iterations; every iteration
entered makes exactly one plan request. -/
theorem applyLoop_planCalls_le (profile : Profile) (env : PageEnv) :
    ∀ fuel i, (applyLoop profile env fuel i).planCalls ≤ fuel := by
  intro fuel
  induction fuel with
  | zero => intro i; simp [applyLoop]
  | succ fuel ih =>
    intro i
    simp only [applyLoop]
    split
    · simp
    · split
      · simp
      · split
        · simp
        · simpa using Nat.succ_le_succ (ih (i + 1))
        · simp

/-! ### Claims about the Action Plan Executor and Plan Acquisition Loop -/

/-- C1.  For every plan whose execution reaches a `Click` action whose
bounded navigation wait observes a navigation event, the executor reports
`navigated = true` (`finished true`) and stops at that action: the number
of steps entered is exactly the prefix plus the click, the effects contain
nothing from the rest of the plan, and the Plan Acquisition Loop reacts to
that flag by making the next iteration's plan request (its remaining
behaviour is the next iteration's). -/
theorem C1_click_nav_halts (profile : Profile) (env : PageEnv) (i fuel : Nat)
    (pre post : List Action) (sel : String)
    (hplan : extractedItems (env.reply i)
      = .ok ((pre ++ Action.click sel :: post).map PlanItem.step))
    (hpre : (runPlan profile (env.exec i) pre 0).result = .finished false)
    (hnav : (env.exec i).outcome pre.length = .ok true) :
    (runPlan profile (env.exec i) (pre ++ .click sel :: post) 0).result = .finished true ∧
    (runPlan profile (env.exec i) (pre ++ .click sel :: post) 0).attempted = pre.length + 1 ∧
    (runPlan profile (env.exec i) (pre ++ .click sel :: post) 0).effects
      = (runPlan profile (env.exec i) pre 0).effects ++ [.clicked sel] ∧
    (applyLoop profile env (fuel + 1) i).planCalls
      = (applyLoop profile env fuel (i + 1)).planCalls + 1 ∧
    (applyLoop profile env (fuel + 1) i).status
      = (applyLoop profile env fuel (i + 1)).status := by
  have hsuffix :
      runPlan profile (env.exec i) (Action.click sel :: post) pre.length
        = ⟨1, [.clicked sel], .finished true⟩ := by
    simp [runPlan, execStep, hnav]
  have hfull := runPlan_append profile (env.exec i) pre (Action.click sel :: post) 0 hpre
  rw [Nat.zero_add, hsuffix] at hfull
  obtain ⟨d, hd, hitems⟩ : ∃ d, get_page_plan_from_gemini (env.reply i) = .ok d ∧
      planItems d = (pre ++ Action.click sel :: post).map PlanItem.step := by
    cases hg : get_page_plan_from_gemini (env.reply i) with
    | error e =>
      rw [extractedItems, hg] at hplan
      exact absurd hplan (by simp [Except.map])
    | ok d =>
      rw [extractedItems, hg] at hplan
      exact ⟨d, rfl, by simpa [Except.map] using hplan⟩
  have hne : (planItems d).isEmpty = false := by
    rw [hitems]
    cases pre <;> simp [List.isEmpty]
  have hrun : runItems profile (env.exec i) (planItems d) 0
      = runPlan profile (env.exec i) (pre ++ Action.click sel :: post) 0 := by
    rw [hitems, runItems_map_step]
  refine ⟨by rw [hfull], by rw [hfull], by rw [hfull], ?_, ?_⟩ <;>
    simp only [applyLoop, hd, hne, Bool.false_eq_true, if_false, hrun, hfull]

/-- C2.  A failing `Upload` aborts the attempt immediately with the error
dict: execution stops at that action (nothing after it is entered, and no
effect after the prefix is performed), and the loop's returned status is
the error. -/
theorem C2_upload_fatal (profile : Profile) (env : PageEnv) (i fuel : Nat)
    (pre post : List Action) (sel : String)
    (hplan : extractedItems (env.reply i)
      = .ok ((pre ++ Action.upload sel :: post).map PlanItem.step))
    (hpre : (runPlan profile (env.exec i) pre 0).result = .finished false)
    (hup : (env.exec i).outcome pre.length = .raised) :
    (runPlan profile (env.exec i) (pre ++ .upload sel :: post) 0).result
      = .fatal ("Failed to upload resume to selector: " ++ sel) ∧
    (runPlan profile (env.exec i) (pre ++ .upload sel :: post) 0).attempted = pre.length + 1 ∧
    (runPlan profile (env.exec i) (pre ++ .upload sel :: post) 0).effects
      = (runPlan profile (env.exec i) pre 0).effects ∧
    (applyLoop profile env (fuel + 1) i).status
      = .error ("Failed to upload resume to selector: " ++ sel) := by
  have hsuffix :
      runPlan profile (env.exec i) (Action.upload sel :: post) pre.length
        = ⟨1, [], .fatal ("Failed to upload resume to selector: " ++ sel)⟩ := by
    simp [runPlan, execStep, hup]
  have hfull := runPlan_append profile (env.exec i) pre (Action.upload sel :: post) 0 hpre
  rw [Nat.zero_add, hsuffix] at hfull
  obtain ⟨d, hd, hitems⟩ : ∃ d, get_page_plan_from_gemini (env.reply i) = .ok d ∧
      planItems d = (pre ++ Action.upload sel :: post).map PlanItem.step := by
    cases hg : get_page_plan_from_gemini (env.reply i) with
    | error e =>
      rw [extractedItems, hg] at hplan
      exact absurd hplan (by simp [Except.map])
    | ok d =>
      rw [extractedItems, hg] at hplan
      exact ⟨d, rfl, by simpa [Except.map] using hplan⟩
  have hne : (planItems d).isEmpty = false := by
    rw [hitems]
    cases pre <;> simp [List.isEmpty]
  have hrun : runItems profile (env.exec i) (planItems d) 0
      = runPlan profile (env.exec i) (pre ++ Action.upload sel :: post) 0 := by
    rw [hitems, runItems_map_step]
  refine ⟨by rw [hfull], by rw [hfull], by simp [hfull], ?_⟩
  simp only [applyLoop, hd, hne, Bool.false_eq_true, if_false, hrun, hfull]

/-- C3 (amended).  A plan response failing after `response` is bound —
malformed JSON, a parsed value that is not a dict, or a dict whose
`"plan"` value has no length — degrades to the literal `{"plan": []}`,
and whenever the current iteration's extracted plan is empty the loop
ends the attempt at once with the success status, zero plan elements
entered on that page and no further plan requests for that attempt.  The
two remaining structure failures do not degrade: a generation exception
escapes as the `except` arm's own `UnboundLocalError`, and a parsed dict
whose `"plan"` is a sized sequence is returned unchanged, whatever its
elements are. -/
theorem C3_structure_failure_paths (profile : Profile) (env : PageEnv) (fuel i : Nat)
    (xs : List PlanItem)
    (hempty : extractedItems (env.reply i) = .ok []) :
    get_page_plan_from_gemini .jsonError = .ok ⟨some []⟩ ∧
    get_page_plan_from_gemini (.parsed .nonDict) = .ok ⟨some []⟩ ∧
    get_page_plan_from_gemini (.parsed (.dict (some .unsized))) = .ok ⟨some []⟩ ∧
    get_page_plan_from_gemini (.parsed (.dict (some (.items xs)))) = .ok ⟨some xs⟩ ∧
    get_page_plan_from_gemini .genFailure = .error unboundLocalMsg ∧
    applyLoop profile env (fuel + 1) i = ⟨1, 0, .success autofillDoneMsg⟩ := by
  refine ⟨rfl, rfl, rfl, rfl, rfl, ?_⟩
  obtain ⟨d, hd, hitems⟩ : ∃ d, get_page_plan_from_gemini (env.reply i) = .ok d ∧
      planItems d = [] := by
    cases hg : get_page_plan_from_gemini (env.reply i) with
    | error e =>
      rw [extractedItems, hg] at hempty
      exact absurd hempty (by simp [Except.map])
    | ok d =>
      rw [extractedItems, hg] at hempty
      exact ⟨d, rfl, by simpa [Except.map] using hempty⟩
  simp [applyLoop, hd, hitems]

/-- C9.  One application attempt enters at most `max_pages_to_process =
10` page iterations, whatever the oracle replies and whatever the browser
does: the plan-request count (one per iteration entered) is at most 10. -/
theorem C9_attempt_bounded (profile : Profile) (env : PageEnv) :
    (apply_for_internship profile env).planCalls ≤ 10 :=
  applyLoop_planCalls_le profile env 10 0

/-- C10.  A `Fill` whose profile key is absent (or bound to `None`) is
neither skipped nor a failure: provided the browser call completes, the
element is filled with the literal string `"None"` (`str(None)`), and the
plan continues with the next action. -/
theorem C10_fill_missing_key_fills_none (profile : Profile) (env : ExecEnv)
    (pre post : List Action) (sel key : String) (b : Bool)
    (hpre : (runPlan profile env pre 0).result = .finished false)
    (hok : env.outcome pre.length = .ok b)
    (hkey : profile key = none) :
    pyStrOpt (profile key) = "None" ∧
    (runPlan profile env (pre ++ .fill sel key :: post) 0).effects
      = (runPlan profile env pre 0).effects
        ++ .filled sel "None" :: (runPlan profile env post (pre.length + 1)).effects ∧
    (runPlan profile env (pre ++ .fill sel key :: post) 0).result
      = (runPlan profile env post (pre.length + 1)).result ∧
    (runPlan profile env (pre ++ .fill sel key :: post) 0).attempted
      = pre.length + 1 + (runPlan profile env post (pre.length + 1)).attempted := by
  have hsuffix :
      runPlan profile env (Action.fill sel key :: post) pre.length
        = ⟨(runPlan profile env post (pre.length + 1)).attempted + 1,
           .filled sel "None" :: (runPlan profile env post (pre.length + 1)).effects,
           (runPlan profile env post (pre.length + 1)).result⟩ := by
    simp [runPlan, execStep, hok, hkey, pyStrOpt]
  have hfull := runPlan_append profile env pre (Action.fill sel key :: post) 0 hpre
  rw [Nat.zero_add, hsuffix] at hfull
  refine ⟨by rw [hkey]; rfl, by simp [hfull], by rw [hfull], ?_⟩
  rw [hfull]
  simp only
  omega

/-! ### Extractor lemmas -/

/-- The listing extractor is the emission filter followed by the per-card
record map. -/
theorem parse_html_eq_filter_map (cards : List JobCard) (p : Nat) :
    parse_html_with_beautifulsoup cards p = (cards.filter cardEmits).map (recordOfCard p) := by
  induction cards with
  | nil => rfl
  | cons c rest ih =>
    by_cases h : cardEmits c = true
    · simp [parse_html_with_beautifulsoup, List.filter_cons, h, ih]
    · simp only [Bool.not_eq_true] at h
      simp [parse_html_with_beautifulsoup, List.filter_cons, h, ih]

/-- Appending a prefix on the left of `pyStartsWith`'s subject preserves a
positive answer. -/
theorem pyStartsWith_append_left (s t u : String) (h : pyStartsWith s u = true) :
    pyStartsWith (s ++ t) u = true := by
  rw [pyStartsWith, String.data_append, List.isPrefixOf_iff_prefix]
  rw [pyStartsWith, List.isPrefixOf_iff_prefix] at h
  exact h.trans (List.prefix_append s.data t.data)

/-- Every card's computed url is the sentinel or starts with `http`. -/
theorem cardUrl_abs (c : JobCard) :
    cardUrl c = "N/A" ∨ pyStartsWith (cardUrl c) "http" = true := by
  rcases c with ⟨tl, co, lo⟩
  cases tl with
  | none => left; rfl
  | some l =>
    cases hh : l.href with
    | none => left; simp [cardUrl, hh]
    | some h =>
      by_cases hcond : h ≠ "N/A" ∧ pyStartsWith h "http" = false
      · right
        simp only [cardUrl, hh, if_pos hcond]
        exact pyStartsWith_append_left "https://www.simplyhired.com" h "http" (by decide)
      · simp only [cardUrl, hh, if_neg hcond]
        rcases Decidable.not_and_iff_or_not.mp hcond with h1 | h2
        · left; simpa using h1
        · right; simpa using h2

/-- The row-loop threads through list concatenation: the carried company
entering the second part is the fold of the first. -/
theorem parseRows_append (xs ys : List Row) (s : String) :
    parseRows (xs ++ ys) s = parseRows xs s ++ parseRows ys (foldCompany xs s) := by
  induction xs generalizing s with
  | nil => simp [parseRows, foldCompany]
  | cons r rs ih =>
    cases h : rowRecord s r with
    | some rec => simp [parseRows, h, ih, foldCompany]
    | none => simp [parseRows, h, ih, foldCompany]

/-- Whether a row produces a record does not depend on the carried
company: it is exactly `rowEmits`. -/
theorem rowRecord_isSome (s : String) (r : Row) :
    (rowRecord s r).isSome = rowEmits r := by
  rcases r with ⟨cells⟩
  match cells with
  | [] => rfl
  | [_] => rfl
  | [_, _] => rfl
  | [_, _, _] => rfl
  | c0 :: c1 :: c2 :: c3 :: rest =>
    simp only [rowRecord, rowEmits]
    cases hu : cellUrl c3 with
    | none => rfl
    | some url =>
      by_cases hs : pyStartsWith url "http" = true
      · simp [hs]
      · simp only [Bool.not_eq_true] at hs
        simp [hs]

/-- One record per emitting row: the parse's length is the number of rows
passing the emission check. -/
theorem parseRows_length (rows : List Row) (s : String) :
    (parseRows rows s).length = (rows.filter rowEmits).length := by
  induction rows generalizing s with
  | nil => rfl
  | cons r rs ih =>
    have he := rowRecord_isSome s r
    cases h : rowRecord s r with
    | some rec =>
      rw [h] at he
      simp only [Option.isSome_some] at he
      simp [parseRows, h, List.filter_cons, ← he, ih]
    | none =>
      rw [h] at he
      simp only [Option.isSome_none] at he
      simp [parseRows, h, List.filter_cons, ← he, ih]

/-- Every emitted internship record's url passed the `http` check. -/
theorem rowRecord_url (s : String) (r : Row) (rec : Internship)
    (h : rowRecord s r = some rec) : pyStartsWith rec.url "http" = true := by
  rcases r with ⟨cells⟩
  match cells with
  | [] => exact absurd h (by simp [rowRecord])
  | [_] => exact absurd h (by simp [rowRecord])
  | [_, _] => exact absurd h (by simp [rowRecord])
  | [_, _, _] => exact absurd h (by simp [rowRecord])
  | c0 :: c1 :: c2 :: c3 :: rest =>
    simp only [rowRecord] at h
    split at h
    · exact absurd h (by simp)
    · split at h
      next hs =>
        cases h
        simpa using hs
      next hs => exact absurd h (by simp)

/-- Every record of the row loop has a url starting with `http`. -/
theorem parseRows_url (rows : List Row) (s : String) (rec : Internship)
    (h : rec ∈ parseRows rows s) : pyStartsWith rec.url "http" = true := by
  induction rows generalizing s with
  | nil => exact absurd h (by simp [parseRows])
  | cons r rs ih =>
    cases hr : rowRecord s r with
    | some rec0 =>
      rw [parseRows, hr] at h
      rcases List.mem_cons.mp h with h1 | h2
      · exact h1 ▸ rowRecord_url s r rec0 hr
      · exact ih _ h2
    | none =>
      rw [parseRows, hr] at h
      exact ih _ h

/-- The record emitted for a continuation-marker row carries exactly the
company the loop has folded so far. -/
theorem rowRecord_marker (s : String) (r : Row)
    (hm : firstTrim r = "↳") (h4 : 4 ≤ r.cells.length) (he : rowEmits r = true) :
    (rowRecord s r).map Internship.company = some s := by
  rcases r with ⟨cells⟩
  match cells with
  | [] => simp at h4
  | [_] => simp at h4
  | [_, _] => simp at h4
  | [_, _, _] => simp at h4
  | c0 :: c1 :: c2 :: c3 :: rest =>
    have hm' : pyStrip c0.text = "↳" := by
      simpa [firstTrim] using hm
    simp only [rowEmits] at he
    simp only [rowRecord]
    cases hu : cellUrl c3 with
    | none => rw [hu] at he; simp at he
    | some url =>
      rw [hu] at he
      simp only at he
      simp [he, hm']

/-- The folded company is the stripped first-cell text of the most recent
row that has at least 4 cells and a non-marker first cell (the default
when there is none). -/
theorem foldCompany_find (rows : List Row) (s : String) :
    foldCompany rows s
      = ((rows.reverse.find? fun r =>
          decide (4 ≤ r.cells.length) && decide (firstTrim r ≠ "↳")).map firstTrim).getD s := by
  induction rows generalizing s with
  | nil => rfl
  | cons r rs ih =>
    have hstep : foldCompany (r :: rs) s = foldCompany rs (rowLast s r) := rfl
    rw [hstep, ih, List.reverse_cons, List.find?_append]
    cases hf : rs.reverse.find? fun q =>
        decide (4 ≤ q.cells.length) && decide (firstTrim q ≠ "↳") with
    | some q => simp
    | none =>
      simp only [Option.none_or]
      rcases r with ⟨cells⟩
      match cells with
      | [] => rfl
      | [_] => rfl
      | [_, _] => rfl
      | [_, _, _] => rfl
      | c0 :: c1 :: c2 :: c3 :: rest =>
        by_cases hmk : pyStrip c0.text = "↳"
        · have : firstTrim ⟨c0 :: c1 :: c2 :: c3 :: rest⟩ = "↳" := by
            simp [firstTrim, hmk]
          simp [rowLast, hmk, List.find?, this]
        · have hft : firstTrim ⟨c0 :: c1 :: c2 :: c3 :: rest⟩ = pyStrip c0.text := by
            simp [firstTrim]
          simp [rowLast, hmk, List.find?, hft]

/-! ### Pagination lemmas -/

/-- Processing page 1 when the initial navigation and the content fetch
succeed: extract and move to page 2. -/
theorem pagLoop_page1 (env : PagEnv) (fuel : Nat)
    (hgoto : env.goto1 = .ok) (hcont : env.content 1 = .ok) :
    pagLoop env (fuel + 1) 1 []
      = pagLoop env fuel 2 (parse_html_with_beautifulsoup (env.cards 1) 1) := by
  simp [pagLoop, hgoto, hcont]

/-- A clean run over `d` pages starting at page `j ≥ 2` (control found and
content fetched on each) accumulates those pages' records and continues. -/
theorem pagLoop_clean (env : PagEnv) (d : Nat) :
    ∀ f j acc, 2 ≤ j →
    (∀ m, j ≤ m → m < j + d → env.control m = .found) →
    (∀ m, j ≤ m → m < j + d → env.content m = .ok) →
    pagLoop env (d + f) j acc = pagLoop env f (j + d) (acc ++ segJobs env j d) := by
  induction d with
  | zero =>
    intro f j acc _ _ _
    simp [segJobs]
  | succ d ih =>
    intro f j acc hj hctrl hcont
    have hj1 : ¬(j = 1) := by omega
    have hc : env.control j = .found := hctrl j le_rfl (by omega)
    have hco : env.content j = .ok := hcont j le_rfl (by omega)
    have hfuel : d + 1 + f = (d + f) + 1 := by omega
    have hstep : pagLoop env (d + 1 + f) j acc
        = pagLoop env (d + f) (j + 1) (acc ++ parse_html_with_beautifulsoup (env.cards j) j) := by
      rw [hfuel]
      simp [pagLoop, hj1, hc, hco]
    rw [hstep, ih f (j + 1) _ (by omega)
        (fun m hm1 hm2 => hctrl m (by omega) (by omega))
        (fun m hm1 hm2 => hcont m (by omega) (by omega))]
    have harith : j + 1 + d = j + (d + 1) := by omega
    rw [harith, List.append_assoc]
    rfl

/-! ### Claims about the Pagination Controller -/

/-- C8.  When the pagination control for page `k = d + 2` is absent and
pages `1..k-1` process cleanly, the run ends in the normal success exit
(`Done`, not an error) returning exactly the records of pages `1..k-1`. -/
theorem C8_absent_control_done (env : PagEnv) (d r : Nat)
    (hgoto : env.goto1 = .ok)
    (hcont : ∀ m, 1 ≤ m → m < d + 2 → env.content m = .ok)
    (hctrl : ∀ m, 2 ≤ m → m < d + 2 → env.control m = .found)
    (habs : env.control (d + 2) = .absent) :
    find_jobs_on_simplyhired env (d + 2 + r) = finishSuccess (segJobs env 1 (d + 1)) := by
  have h1 : find_jobs_on_simplyhired env (d + 2 + r) = pagLoop env (d + (r + 1) + 1) 1 [] := by
    have hfuel : d + 2 + r = d + (r + 1) + 1 := by omega
    rw [find_jobs_on_simplyhired, hfuel]
  rw [h1, pagLoop_page1 env (d + (r + 1)) hgoto (hcont 1 (by omega) (by omega))]
  rw [pagLoop_clean env d (r + 1) 2 (parse_html_with_beautifulsoup (env.cards 1) 1) (by omega)
      (fun m hm1 hm2 => hctrl m hm1 (by omega))
      (fun m hm1 hm2 => hcont m (by omega) (by omega))]
  have h3 : (2 : Nat) + d = d + 2 := by omega
  have hne : ¬(d + 2 = 1) := by omega
  rw [h3]
  simp [pagLoop, hne, habs, segJobs]

/-- C4 (amended).  A navigation timeout or unexpected exception escaping
to the outer handlers at page `d + 1` (after pages `1..d` processed
cleanly) aborts the run at once: the accumulated records are saved to the
Google Sheet (when nonempty) rather than discarded, and the returned value
is the single error dict carrying their count — not the records. -/
theorem C4_failure_keeps_partial_results (env : PagEnv) (d r : Nat) (dtl : String)
    (hgoto : env.goto1 = .ok)
    (hcont : ∀ m, 1 ≤ m → m ≤ d → env.content m = .ok)
    (hctrl : ∀ m, 2 ≤ m → m ≤ d + 1 → env.control m = .found)
    (hfail : env.content (d + 1) = .timeout dtl ∨ env.content (d + 1) = .err dtl) :
    (find_jobs_on_simplyhired env (d + 1 + r)).sheetSaves = saveIf (segJobs env 1 d) ∧
    ((find_jobs_on_simplyhired env (d + 1 + r)).result
        = .errorReport "Playwright timeout" dtl (segJobs env 1 d).length ∨
     (find_jobs_on_simplyhired env (d + 1 + r)).result
        = .errorReport "Unexpected error during scraping" dtl (segJobs env 1 d).length) := by
  have hmain : find_jobs_on_simplyhired env (d + 1 + r) = finishTimeout (segJobs env 1 d) dtl ∨
      find_jobs_on_simplyhired env (d + 1 + r) = finishUnexpected (segJobs env 1 d) dtl := by
    cases d with
    | zero =>
      have hfuel : 0 + 1 + r = r + 1 := by omega
      rw [find_jobs_on_simplyhired, hfuel]
      rcases hfail with hf | hf
      · left
        simp [pagLoop, hgoto, hf, segJobs]
      · right
        simp [pagLoop, hgoto, hf, segJobs]
    | succ d =>
      have h1 : find_jobs_on_simplyhired env (d + 1 + 1 + r) = pagLoop env (d + (r + 1) + 1) 1 [] := by
        have hfuel : d + 1 + 1 + r = d + (r + 1) + 1 := by omega
        rw [find_jobs_on_simplyhired, hfuel]
      rw [h1, pagLoop_page1 env (d + (r + 1)) hgoto (hcont 1 (by omega) (by omega))]
      rw [pagLoop_clean env d (r + 1) 2 (parse_html_with_beautifulsoup (env.cards 1) 1) (by omega)
          (fun m hm1 hm2 => hctrl m hm1 (by omega))
          (fun m hm1 hm2 => hcont m (by omega) (by omega))]
      have h3 : (2 : Nat) + d = d + 1 + 1 := by omega
      have hne : ¬(d + 1 + 1 = 1) := by omega
      have hc : env.control (d + 1 + 1) = .found := hctrl (d + 1 + 1) (by omega) (by omega)
      rw [h3]
      rcases hfail with hf | hf
      · left
        rw [show d + 1 + 1 = d + 2 from rfl] at hc hne ⊢
        rw [show d + 1 + 1 = d + 2 from rfl] at hf
        simp [pagLoop, hne, hc, hf, segJobs]
      · right
        rw [show d + 1 + 1 = d + 2 from rfl] at hc hne ⊢
        rw [show d + 1 + 1 = d + 2 from rfl] at hf
        simp [pagLoop, hne, hc, hf, segJobs]
  rcases hmain with hm | hm <;> rw [hm]
  · exact ⟨rfl, Or.inl rfl⟩
  · exact ⟨rfl, Or.inr rfl⟩

/-! ### Claims about the Record Extractors -/

/-- The url resolution of a row's application cell (the fourth cell), when
the row has one. -/
def fourthCellUrl (r : Row) : Option String :=
  match r.cells with
  | _ :: _ :: _ :: c3 :: _ => cellUrl c3
  | _ => none

/-- C5 (amended).  Both extractors are total Lean functions (every
malformed shape is handled by a case, never an error): a missing
sub-element degrades the affected field to the sentinel `"N/A"`; the
listing variant emits a record exactly when the computed title differs
from the sentinel (so a present title whose stripped text is literally
`"N/A"` is dropped); the internship variant emits one record per row
passing `rowEmits` (at least four cells and an `http`-prefixed resolved
link — company/role presence is never checked), and skipped rows never
affect the other rows' records. -/
theorem C5_extractor_emission (cards : List JobCard) (p : Nat)
    (c : JobCard) (l : TitleLink) (doc : IDoc) (s : String) (r : Row)
    (hco : c.company = none) (hlo : c.location = none)
    (htl : c.titleLink = some l) (hhr : l.href = none) :
    parse_html_with_beautifulsoup cards p = (cards.filter cardEmits).map (recordOfCard p) ∧
    (recordOfCard p c).company = "N/A" ∧
    (recordOfCard p c).location = "N/A" ∧
    (recordOfCard p c).url = "N/A" ∧
    (rowRecord s r).isSome = rowEmits r ∧
    (parse_internship_table doc).length = ((rowsOf doc).filter rowEmits).length := by
  refine ⟨parse_html_eq_filter_map cards p, ?_, ?_, ?_, rowRecord_isSome s r, ?_⟩
  · simp [recordOfCard, hco]
  · simp [recordOfCard, hlo]
  · simp [recordOfCard, cardUrl, htl, hhr]
  · rcases doc with ⟨mb⟩
    cases mb with
    | none => rfl
    | some article =>
      rcases article with ⟨tb⟩
      cases tb with
      | none => rfl
      | some table =>
        rcases table with ⟨rows0⟩
        cases rows0 with
        | none => rfl
        | some rows =>
          simpa [parse_internship_table, rowsOf] using parseRows_length rows ""

/-- C6.  Every emitted record's url is absolute in the code's sense
(starts with `http`) or the explicit sentinel, never a relative path: the
listing variant prefixes a relative `href` with the site origin before
storing it, and an internship row whose resolved link does not start with
`http` fails the emission check — it is excluded, not errored. -/
theorem C6_url_absolute_or_sentinel (cards : List JobCard) (p : Nat) (j : Job)
    (doc : IDoc) (rec : Internship) (c : JobCard) (l : TitleLink) (h : String)
    (r : Row) (url : String)
    (hj : j ∈ parse_html_with_beautifulsoup cards p)
    (hrec : rec ∈ parse_internship_table doc)
    (hcl : c.titleLink = some l) (hlh : l.href = some h)
    (hna : h ≠ "N/A") (hrel : pyStartsWith h "http" = false)
    (hru : fourthCellUrl r = some url) (hnh : pyStartsWith url "http" = false) :
    (j.url = "N/A" ∨ pyStartsWith j.url "http" = true) ∧
    pyStartsWith rec.url "http" = true ∧
    cardUrl c = "https://www.simplyhired.com" ++ h ∧
    rowEmits r = false := by
  refine ⟨?_, ?_, ?_, ?_⟩
  · rw [parse_html_eq_filter_map] at hj
    rcases List.mem_map.mp hj with ⟨c0, _, rfl⟩
    simpa [recordOfCard] using cardUrl_abs c0
  · rcases doc with ⟨mb⟩
    cases mb with
    | none => exact absurd hrec (by simp [parse_internship_table])
    | some article =>
      rcases article with ⟨tb⟩
      cases tb with
      | none => exact absurd hrec (by simp [parse_internship_table])
      | some table =>
        rcases table with ⟨rows0⟩
        cases rows0 with
        | none => exact absurd hrec (by simp [parse_internship_table])
        | some rows => exact parseRows_url rows "" rec hrec
  · have hcond : h ≠ "N/A" ∧ pyStartsWith h "http" = false := ⟨hna, hrel⟩
    simp [cardUrl, hcl, hlh, if_pos hcond]
  · rcases r with ⟨cells⟩
    match cells with
    | [] => rfl
    | [_] => rfl
    | [_, _] => rfl
    | [_, _, _] => rfl
    | c0 :: c1 :: c2 :: c3 :: rest =>
      simp only [fourthCellUrl] at hru
      simp only [rowEmits, hru, hnh]

/-- C7 (amended).  An emitted continuation-marker row's record carries the
company of the most recent preceding row that has at least 4 cells and a
non-marker first cell (rows with fewer than 4 cells are skipped without
updating the carried company), with `""` as the default when no such row
precedes. -/
theorem C7_marker_inherits_company (pre post : List Row) (r : Row)
    (hm : firstTrim r = "↳") (h4 : 4 ≤ r.cells.length) (he : rowEmits r = true) :
    ∃ rec rest,
      parse_internship_table (mkDoc (pre ++ r :: post)) = parseRows pre "" ++ rec :: rest ∧
      rec.company = codeInheritedCompany pre := by
  have h1 : parse_internship_table (mkDoc (pre ++ r :: post)) = parseRows (pre ++ r :: post) "" := rfl
  rw [h1, parseRows_append]
  have hmark := rowRecord_marker (foldCompany pre "") r hm h4 he
  rcases Option.map_eq_some'.mp hmark with ⟨rec, hrec, hcomp⟩
  refine ⟨rec, parseRows post (rowLast (foldCompany pre "") r), ?_, ?_⟩
  · simp only [parseRows, hrec]
  · rw [hcomp, foldCompany_find]
    rfl

/-! ### Concrete inputs for counterexamples and witnesses -/

/-- A profile with every key absent. -/
def profileNone : Profile := fun _ => none

/-- An execution environment in which every browser call completes and
every click navigates. -/
def execEnvNav : ExecEnv := ⟨fun _ => .ok true, fun _ => ""⟩

/-- An execution environment in which every browser call raises. -/
def execEnvRaise : ExecEnv := ⟨fun _ => .raised, fun _ => ""⟩

/-- An execution environment in which every browser call completes and no
click navigates. -/
def execEnvOk : ExecEnv := ⟨fun _ => .ok false, fun _ => ""⟩

/-- An attempt whose oracle always answers with a single-click plan. -/
def pageEnvClick : PageEnv :=
  ⟨fun _ => .parsed (.dict (some (.items [.step (.click "button#next")]))),
   fun _ => execEnvNav⟩

/-- The spec's scenario plan: `[Fill(name), Upload(resume), Click(submit)]`. -/
def planFillUploadClick : List Action :=
  [.fill "input#name" "first_name", .upload "input#resume", .click "button#submit"]

/-- An attempt whose oracle answers with the scenario plan and whose
browser calls all raise. -/
def pageEnvUpload : PageEnv :=
  ⟨fun _ => .parsed (.dict (some (.items (planFillUploadClick.map PlanItem.step)))),
   fun _ => execEnvRaise⟩

/-- An attempt whose oracle reply is always malformed JSON. -/
def pageEnvJsonErr : PageEnv := ⟨fun _ => .jsonError, fun _ => execEnvRaise⟩

/-- An attempt whose generation call always raises before `response` is
bound. -/
def pageEnvGenFail : PageEnv := ⟨fun _ => .genFailure, fun _ => execEnvRaise⟩

/-- The parsed reply `{"plan": ["click the button"]}`: a dict whose
`"plan"` is a list with one string element, not an action dict. -/
def strPlanReply : GeminiPlanResponse :=
  .parsed (.dict (some (.items [.nonDict "str"])))

/-- An attempt whose oracle always answers with
`{"plan": ["click the button"]}`. -/
def pageEnvStrPlan : PageEnv := ⟨fun _ => strPlanReply, fun _ => execEnvRaise⟩

/-- A well-formed listing card with a relative `href`. -/
def cexCard : JobCard := ⟨some ⟨"Engineer", some "/job/1"⟩, some "Acme", some "LA"⟩

/-- A scrape in which page 1 succeeds with one card and page 2's content
fetch times out. -/
def cexPagEnv : PagEnv :=
  ⟨.ok, fun _ => .found,
   fun k => if k = 2 then .timeout "nav timeout" else .ok,
   fun k => if k = 1 then [cexCard] else []⟩

/-- A scrape in which page 1 succeeds with one card and page 2's
pagination control is absent. -/
def c8PagEnv : PagEnv :=
  ⟨.ok, fun m => if m = 2 then .absent else .found,
   fun _ => .ok,
   fun k => if k = 1 then [cexCard] else []⟩

/-- A listing card whose title element is present but whose text is
literally the sentinel. -/
def cexTitleNA : JobCard := ⟨some ⟨"N/A", some "/x"⟩, none, none⟩

/-- An internship row with empty company and role cells but a valid
application link. -/
def cexEmptyRow : Row :=
  ⟨[⟨"", none, []⟩, ⟨"", none, []⟩, ⟨"", none, []⟩,
    ⟨"", some (some "https://apply.example.com"), []⟩]⟩

/-- The record the parser emits for `cexEmptyRow`. -/
def cexEmptyRec : Internship := ⟨"", "", "", "N/A", "https://apply.example.com"⟩

/-- A full internship row for the company `Acme`. -/
def rowAcme : Row :=
  ⟨[⟨"Acme", none, []⟩, ⟨"SWE Intern", none, []⟩, ⟨"LA", none, ["LA"]⟩,
    ⟨"", some (some "https://acme.example.com/apply"), []⟩, ⟨"Oct 10", none, []⟩]⟩

/-- A malformed one-cell row naming `Beta`. -/
def rowBetaShort : Row := ⟨[⟨"Beta", none, []⟩]⟩

/-- A continuation-marker row with a valid application link. -/
def rowMarker : Row :=
  ⟨[⟨"↳", none, []⟩, ⟨"Data Intern", none, []⟩, ⟨"NY", none, ["NY"]⟩,
    ⟨"", some (some "https://beta.example.com/apply"), []⟩, ⟨"Oct 11", none, []⟩]⟩

/-- An internship row whose application link has no `http` prefix. -/
def cexFtpRow : Row :=
  ⟨[⟨"Gamma", none, []⟩, ⟨"Intern", none, []⟩, ⟨"Remote", none, ["Remote"]⟩,
    ⟨"", some (some "ftp://files.example.com"), []⟩]⟩

/-- Modelled from the spec's words, for comparison with the code: an
"absolute URL (carrying a recognizable scheme)" is one starting with a
scheme prefix — `http://` or `https://`, the only schemes this system
ever constructs or consumes. -/
def specAbsoluteUrl (u : String) : Bool :=
  pyStartsWith u "http://" || pyStartsWith u "https://"

/-- A listing card whose `href` is a relative path that happens to begin
with the letters `http`. -/
def cexHttpfooCard : JobCard := ⟨some ⟨"Dev", some "httpfoo/bar"⟩, none, none⟩

/-- An internship row whose application cell text is a schemeless value
beginning with the letters `http`. -/
def cexHttpfooRow : Row :=
  ⟨[⟨"Delta", none, []⟩, ⟨"Intern", none, []⟩, ⟨"NY", none, ["NY"]⟩,
    ⟨"httpfoo/bar", none, []⟩]⟩

/-! ### Counterexamples -/

/-- C3 counterexample.  Two responses failing the `{ plan: Action[] }`
structure that the code does not degrade to the empty plan: a generation
exception escapes as the handler's own `UnboundLocalError` and the
attempt ends with the error status; and the parsed reply
`{"plan": ["click the button"]}` is returned unchanged — not
`{"plan": []}` — after which the attempt ends with the error status
(`AttributeError` at the first non-dict element) with one plan element
entered, not zero. -/
theorem C3_cex_failures_do_not_degrade :
    get_page_plan_from_gemini .genFailure = .error unboundLocalMsg ∧
    applyLoop profileNone pageEnvGenFail 10 0 = ⟨1, 0, .error unboundLocalMsg⟩ ∧
    get_page_plan_from_gemini strPlanReply = .ok ⟨some [.nonDict "str"]⟩ ∧
    applyLoop profileNone pageEnvStrPlan 10 0
      = ⟨1, 1, .error (attributeErrorMsg "str")⟩ :=
  ⟨rfl, rfl, rfl, rfl⟩

/-- C6 counterexample.  The relative href `httpfoo/bar` carries no
scheme, yet the listing variant stores it unnormalized (it passes the
`startswith('http')` test) and the internship variant emits a row whose
link is the same schemeless value instead of excluding it: an emitted
url that is neither the sentinel nor an absolute URL. -/
theorem C6_cex_http_prefix_not_absolute :
    parse_html_with_beautifulsoup [cexHttpfooCard] 1
      = [⟨"Dev", "N/A", "N/A", "httpfoo/bar", 1⟩] ∧
    specAbsoluteUrl "httpfoo/bar" = false ∧
    parse_internship_table (mkDoc [cexHttpfooRow])
      = [⟨"Delta", "Intern", "NY", "N/A", "httpfoo/bar"⟩] := by
  decide

/-- C4 counterexample.  One record is collected on page 1, then page 2's
content fetch times out: the returned value is the bare error dict with
count 1 — it contains none of the accumulated records (they are passed to
the Google Sheet save instead), refuting the claim that the records
accumulated are returned wrapped with the error indicator. -/
theorem C4_cex_error_return_has_no_records :
    find_jobs_on_simplyhired cexPagEnv 2
      = ⟨.errorReport "Playwright timeout" "nav timeout" 1,
         [[⟨"Engineer", "Acme", "LA", "https://www.simplyhired.com/job/1", 1⟩]]⟩ ∧
    recordsReturned (find_jobs_on_simplyhired cexPagEnv 2).result = [] := by
  decide

/-- C5 counterexample.  A listing card whose title element is present but
reads `"N/A"` is dropped (emission is not "exactly when the title is
present"), and an internship row with empty company and role cells but a
valid link is emitted (company+role presence is not checked). -/
theorem C5_cex_emission_mismatch :
    parse_html_with_beautifulsoup [cexTitleNA] 1 = [] ∧
    cexTitleNA.titleLink ≠ none ∧
    parse_internship_table (mkDoc [cexEmptyRow]) = [cexEmptyRec] := by
  decide

/-- C7 counterexample.  The most recent preceding row whose first cell is
not the marker is the one-cell `Beta` row, but the marker row's record
inherits `Acme`: rows with fewer than 4 cells are skipped without
updating the carried company, refuting the claim as stated. -/
theorem C7_cex_short_row_not_inherited :
    (parse_internship_table (mkDoc [rowAcme, rowBetaShort, rowMarker])).map Internship.company
      = ["Acme", "Acme"] ∧
    specInheritedCompany [rowAcme, rowBetaShort] = "Beta" := by
  decide

/-! ### Witnesses -/

/-- C1 witness at the one-click plan. -/
theorem C1_witness :
    (runPlan profileNone (pageEnvClick.exec 0) ([] ++ Action.click "button#next" :: []) 0).result
      = .finished true ∧
    (runPlan profileNone (pageEnvClick.exec 0) ([] ++ Action.click "button#next" :: []) 0).attempted
      = List.length ([] : List Action) + 1 ∧
    (runPlan profileNone (pageEnvClick.exec 0) ([] ++ Action.click "button#next" :: []) 0).effects
      = (runPlan profileNone (pageEnvClick.exec 0) [] 0).effects ++ [.clicked "button#next"] ∧
    (applyLoop profileNone pageEnvClick (0 + 1) 0).planCalls
      = (applyLoop profileNone pageEnvClick 0 (0 + 1)).planCalls + 1 ∧
    (applyLoop profileNone pageEnvClick (0 + 1) 0).status
      = (applyLoop profileNone pageEnvClick 0 (0 + 1)).status :=
  C1_click_nav_halts profileNone pageEnvClick 0 0 [] [] "button#next" rfl rfl rfl

/-- C2 witness at the spec's scenario plan, with the upload raising. -/
theorem C2_witness :
    (runPlan profileNone (pageEnvUpload.exec 0)
        ([.fill "input#name" "first_name"] ++ Action.upload "input#resume" :: [.click "button#submit"]) 0).result
      = .fatal ("Failed to upload resume to selector: " ++ "input#resume") ∧
    (runPlan profileNone (pageEnvUpload.exec 0)
        ([.fill "input#name" "first_name"] ++ Action.upload "input#resume" :: [.click "button#submit"]) 0).attempted
      = List.length [Action.fill "input#name" "first_name"] + 1 ∧
    (runPlan profileNone (pageEnvUpload.exec 0)
        ([.fill "input#name" "first_name"] ++ Action.upload "input#resume" :: [.click "button#submit"]) 0).effects
      = (runPlan profileNone (pageEnvUpload.exec 0) [.fill "input#name" "first_name"] 0).effects ∧
    (applyLoop profileNone pageEnvUpload (0 + 1) 0).status
      = .error ("Failed to upload resume to selector: " ++ "input#resume") :=
  C2_upload_fatal profileNone pageEnvUpload 0 0
    [.fill "input#name" "first_name"] [.click "button#submit"] "input#resume" rfl rfl rfl

/-- C3 witness at an attempt whose oracle reply is malformed JSON. -/
theorem C3_witness :
    get_page_plan_from_gemini .jsonError = .ok ⟨some []⟩ ∧
    get_page_plan_from_gemini (.parsed .nonDict) = .ok ⟨some []⟩ ∧
    get_page_plan_from_gemini (.parsed (.dict (some .unsized))) = .ok ⟨some []⟩ ∧
    get_page_plan_from_gemini (.parsed (.dict (some (.items [])))) = .ok ⟨some []⟩ ∧
    get_page_plan_from_gemini .genFailure = .error unboundLocalMsg ∧
    applyLoop profileNone pageEnvJsonErr (0 + 1) 0 = ⟨1, 0, .success autofillDoneMsg⟩ :=
  C3_structure_failure_paths profileNone pageEnvJsonErr 0 0 [] rfl

/-- C4 witness at the concrete failing scrape. -/
theorem C4_witness :
    (find_jobs_on_simplyhired cexPagEnv (1 + 1 + 0)).sheetSaves
      = saveIf (segJobs cexPagEnv 1 1) ∧
    ((find_jobs_on_simplyhired cexPagEnv (1 + 1 + 0)).result
        = .errorReport "Playwright timeout" "nav timeout" (segJobs cexPagEnv 1 1).length ∨
     (find_jobs_on_simplyhired cexPagEnv (1 + 1 + 0)).result
        = .errorReport "Unexpected error during scraping" "nav timeout" (segJobs cexPagEnv 1 1).length) :=
  C4_failure_keeps_partial_results cexPagEnv 1 0 "nav timeout" rfl
    (by intro m h1 h2; have hm : m = 1 := (by omega); rw [hm]; decide)
    (by intro m h1 h2; rfl)
    (Or.inl rfl)

/-- C5 witness at concrete inputs for every conjunct. -/
theorem C5_witness :
    parse_html_with_beautifulsoup [cexTitleNA] 1
      = ([cexTitleNA].filter cardEmits).map (recordOfCard 1) ∧
    (recordOfCard 1 ⟨some ⟨"T", none⟩, none, none⟩).company = "N/A" ∧
    (recordOfCard 1 ⟨some ⟨"T", none⟩, none, none⟩).location = "N/A" ∧
    (recordOfCard 1 ⟨some ⟨"T", none⟩, none, none⟩).url = "N/A" ∧
    (rowRecord "" cexEmptyRow).isSome = rowEmits cexEmptyRow ∧
    (parse_internship_table (mkDoc [cexEmptyRow])).length
      = ((rowsOf (mkDoc [cexEmptyRow])).filter rowEmits).length :=
  C5_extractor_emission [cexTitleNA] 1 ⟨some ⟨"T", none⟩, none, none⟩ ⟨"T", none⟩
    (mkDoc [cexEmptyRow]) "" cexEmptyRow rfl rfl rfl rfl

/-- C6 witness at concrete records of both extractors, a relative listing
href, and a schemeless internship link. -/
theorem C6_witness :
    ((recordOfCard 1 cexCard).url = "N/A"
        ∨ pyStartsWith (recordOfCard 1 cexCard).url "http" = true) ∧
    pyStartsWith cexEmptyRec.url "http" = true ∧
    cardUrl cexCard = "https://www.simplyhired.com" ++ "/job/1" ∧
    rowEmits cexFtpRow = false :=
  C6_url_absolute_or_sentinel [cexCard] 1 (recordOfCard 1 cexCard)
    (mkDoc [cexEmptyRow]) cexEmptyRec cexCard ⟨"Engineer", some "/job/1"⟩ "/job/1"
    cexFtpRow "ftp://files.example.com"
    (by decide) (by decide) rfl rfl (by decide) (by decide) rfl (by decide)

/-- C7 witness at the concrete marker row following a skipped short row. -/
theorem C7_witness :
    ∃ rec rest,
      parse_internship_table (mkDoc ([rowAcme, rowBetaShort] ++ rowMarker :: []))
        = parseRows [rowAcme, rowBetaShort] "" ++ rec :: rest ∧
      rec.company = codeInheritedCompany [rowAcme, rowBetaShort] :=
  C7_marker_inherits_company [rowAcme, rowBetaShort] [] rowMarker
    (by decide) (by decide) (by decide)

/-- C8 witness at the concrete scrape whose page-2 control is absent. -/
theorem C8_witness :
    find_jobs_on_simplyhired c8PagEnv (0 + 2 + 0) = finishSuccess (segJobs c8PagEnv 1 (0 + 1)) :=
  C8_absent_control_done c8PagEnv 0 0 rfl
    (by intro m h1 h2; rfl)
    (by intro m h1 h2; omega)
    rfl

/-- C10 witness at a one-step plan filling a missing key. -/
theorem C10_witness :
    pyStrOpt (profileNone "preferred_name") = "None" ∧
    (runPlan profileNone execEnvOk ([] ++ Action.fill "input#pref" "preferred_name" :: []) 0).effects
      = (runPlan profileNone execEnvOk [] 0).effects
        ++ .filled "input#pref" "None"
          :: (runPlan profileNone execEnvOk [] (List.length ([] : List Action) + 1)).effects ∧
    (runPlan profileNone execEnvOk ([] ++ Action.fill "input#pref" "preferred_name" :: []) 0).result
      = (runPlan profileNone execEnvOk [] (List.length ([] : List Action) + 1)).result ∧
    (runPlan profileNone execEnvOk ([] ++ Action.fill "input#pref" "preferred_name" :: []) 0).attempted
      = List.length ([] : List Action) + 1
        + (runPlan profileNone execEnvOk [] (List.length ([] : List Action) + 1)).attempted :=
  C10_fill_missing_key_fills_none profileNone execEnvOk [] [] "input#pref" "preferred_name" false
    rfl rfl rfl

end JobAgent
